import Mathlib

/-!
Shallow embedding of the conTEXT LLM model-registry library
(`src/parser.ts`, the fetcher, the fallback model table and the query
utilities) and proofs about its documented behaviour.

Modelling conventions:
* JavaScript numbers that hold token counts are embedded as `Nat`;
  string-encoded decimal prices are parsed into exact rationals (`ℚ`).
* Timestamps (`new Date().toISOString()`) are abstracted to the epoch
  instant they denote, passed in explicitly as a `now : Nat` parameter;
  the ISO rendering is injective, so equalities are unaffected.
* JavaScript truthiness on numbers (`x || y`) and strings (`s || t`,
  `s ? a : b`) is modelled by explicit helpers treating `0` and `""`
  as falsy.
* Fallible I/O stages of the fetcher are passed in as explicit
  `Except` / `Option` outcomes.
-/

/-- Whitespace test used for JS `trim`, the `\s` character class and
`parseFloat` leading-space skipping (ASCII fragment). -/
def jsIsSpace (c : Char) : Bool :=
  c = ' ' || c = '\t' || c = '\n' || c = '\r'

/-- JS `a || b` on an optional number field: `undefined`, and `0`, are falsy. -/
def jsOrNat (a : Option Nat) (b : Nat) : Nat :=
  match a with
  | some v => if v = 0 then b else v
  | none => b

/-- JS `a || b` on an optional string field: `undefined`, and `""`, are falsy. -/
def jsOrStr (a : Option String) (b : String) : String :=
  match a with
  | some s => if s = "" then b else s
  | none => b

/-- JS `String.prototype.split` with a single-character separator,
on the character list of the string. `split` of the empty string is `[[]]`. -/
def splitChar (sep : Char) : List Char → List (List Char)
  | [] => [[]]
  | c :: rest =>
    match splitChar sep rest with
    | [] => [[c]]
    | h :: t => if c = sep then [] :: h :: t else (c :: h) :: t

/-- JS `Array.prototype.join` with a single-character separator. -/
def joinChar (sep : Char) : List (List Char) → List Char
  | [] => []
  | [x] => x
  | x :: y :: t => x ++ sep :: joinChar sep (y :: t)

/-- Numeric value of a digit string. -/
def digitsVal (l : List Char) : Nat :=
  l.foldl (fun n c => n * 10 + (c.toNat - 48)) 0

/-- JS `parseFloat`, over exact rationals: skip leading whitespace, optional
sign, longest prefix `digits[.digits][e[±]digits]`; `none` plays the role of
`NaN` (no numeric prefix).  `Infinity` inputs are also mapped to `none`;
the library only feeds decimal cost strings to this parser. -/
def jsParseFloat (s : String) : Option ℚ :=
  let l := s.toList.dropWhile jsIsSpace
  let sgnAndRest : Int × List Char :=
    match l with
    | '-' :: r => (-1, r)
    | '+' :: r => (1, r)
    | _ => (1, l)
  let sgn := sgnAndRest.1
  let l1 := sgnAndRest.2
  let intPart := l1.takeWhile Char.isDigit
  let r1 := l1.dropWhile Char.isDigit
  let fracAndRest : List Char × List Char :=
    match r1 with
    | '.' :: r => (r.takeWhile Char.isDigit, r.dropWhile Char.isDigit)
    | _ => ([], r1)
  let fracPart := fracAndRest.1
  let r2 := fracAndRest.2
  if intPart = [] ∧ fracPart = [] then none
  else
    let mantNum : Int := sgn * (digitsVal (intPart ++ fracPart) : Int)
    let eInfo : Bool × List Char :=
      match r2 with
      | 'e' :: r | 'E' :: r =>
        match r with
        | '-' :: rr => (true, rr.takeWhile Char.isDigit)
        | '+' :: rr => (false, rr.takeWhile Char.isDigit)
        | _ => (false, r.takeWhile Char.isDigit)
      | _ => (false, [])
    let e := digitsVal eInfo.2
    some (if eInfo.1 then mkRat mantNum (10 ^ (fracPart.length + e))
          else mkRat (mantNum * (10 : Int) ^ e) (10 ^ fracPart.length))

/-- JS `parseFloat(s) || 0`: parse failure (`NaN`) collapses to `0`. -/
def jsParseFloatOr0 (s : String) : ℚ :=
  match jsParseFloat s with
  | some v => v
  | none => 0

/-- Containment of `needle` as a contiguous run of `hay`. -/
def listInfixCheck (needle : List Char) : List Char → Bool
  | [] => needle.isEmpty
  | c :: t => needle.isPrefixOf (c :: t) || listInfixCheck needle t

/-- JS `hay.includes(needle)` (substring containment). -/
def strIncludes (hay needle : String) : Bool :=
  listInfixCheck needle.toList hay.toList

/-- JS `s.endsWith(suffix)`. -/
def strEndsWith (s suf : String) : Bool :=
  suf.toList.isSuffixOf s.toList

/-- JS `s.toLowerCase()` (character-wise lowering; ASCII-faithful). -/
def jsToLower (s : String) : String :=
  String.mk (s.toList.map Char.toLower)

/-- JS `s.trim()` (ASCII whitespace). -/
def jsTrim (s : String) : String :=
  String.mk (((s.toList.dropWhile jsIsSpace).reverse.dropWhile jsIsSpace).reverse)

-- ============================================================================
-- Data model (from src/types.ts)
-- ============================================================================

/-- Size tier classification (`ModelSizeTier` in types.ts). -/
inductive ModelSizeTier
  | tiny
  | small
  | medium
  | large
  | massive
deriving DecidableEq

/-- Raw pricing block of an OpenRouter record: string-encoded decimal costs. -/
structure RawPricing where
  prompt : String
  completion : String
  request : Option String := none
  image : Option String := none
  web_search : Option String := none
  internal_reasoning : Option String := none
  input_cache_read : Option String := none
  input_cache_write : Option String := none
deriving DecidableEq

/-- Raw `top_provider` override block. -/
structure TopProvider where
  context_length : Option Nat := none
  max_completion_tokens : Option Nat := none
  is_moderated : Option Bool := none
deriving DecidableEq

/-- Raw `architecture` block. -/
structure Architecture where
  modality : String
  input_modalities : Option (List String) := none
  output_modalities : Option (List String) := none
  tokenizer : String
  instruct_type : Option String := none
deriving DecidableEq

/-- Raw `default_parameters` block. -/
structure DefaultParameters where
  temperature : Option ℚ := none
  top_p : Option ℚ := none
  top_k : Option ℚ := none
  frequency_penalty : Option ℚ := none
  presence_penalty : Option ℚ := none
deriving DecidableEq

/-- Raw `per_request_limits` block. -/
structure PerRequestLimits where
  prompt_tokens : Option Nat := none
  completion_tokens : Option Nat := none
deriving DecidableEq

/-- Raw model record from the OpenRouter `/api/v1/models` endpoint
(`OpenRouterModel` in types.ts). -/
structure OpenRouterModel where
  id : String
  canonical_slug : Option String := none
  name : String
  description : Option String := none
  context_length : Nat
  max_completion_tokens : Option Nat := none
  created : Option Nat := none
  hugging_face_id : Option String := none
  pricing : RawPricing
  top_provider : Option TopProvider := none
  architecture : Option Architecture := none
  per_request_limits : Option PerRequestLimits := none
  supported_parameters : Option (List String) := none
  default_parameters : Option DefaultParameters := none
deriving DecidableEq

/-- Provider branding record (`ModelProvider`). -/
structure ModelProvider where
  id : String
  name : String
  color : String
  icon : Option String := none
deriving DecidableEq

/-- Normalized pricing (`ModelPricing`), per-million-unit scale. -/
structure ModelPricing where
  promptPerMillion : ℚ
  completionPerMillion : ℚ
  isFree : Bool
  imagePerImage : Option ℚ := none
  requestCost : Option ℚ := none
  webSearchCost : Option ℚ := none
  reasoningPerMillion : Option ℚ := none
  cacheReadPerMillion : Option ℚ := none
  cacheWritePerMillion : Option ℚ := none
deriving DecidableEq

/-- Normalized capabilities (`ModelCapabilities`); the `modality` field is
the legacy tri-state string `"text" | "text+image" | "multimodal"`. -/
structure ModelCapabilities where
  inputModalities : List String
  outputModalities : List String
  modalityString : String
  supportsTools : Bool
  supportsReasoning : Bool
  supportsStructuredOutput : Bool
  supportsJsonMode : Bool
  supportsStreaming : Bool
  supportsTemperature : Bool
  supportsTopP : Bool
  supportsTopK : Bool
  supportsFrequencyPenalty : Bool
  supportsPresencePenalty : Bool
  supportsStopSequences : Bool
  supportsWebSearch : Bool
  isModerated : Bool
  supportsImages : Bool
  modality : String
  instructType : Option String := none
deriving DecidableEq

/-- Normalized default parameters (`ModelDefaults`). -/
structure ModelDefaults where
  temperature : Option ℚ := none
  topP : Option ℚ := none
  topK : Option ℚ := none
  frequencyPenalty : Option ℚ := none
  presencePenalty : Option ℚ := none
deriving DecidableEq

/-- Normalized per-request limits (`RequestLimits`). -/
structure RequestLimits where
  promptTokens : Option Nat := none
  completionTokens : Option Nat := none
deriving DecidableEq

/-- The normalized model (`LLMModel`).  `createdAt` and `updatedAt` hold the
epoch instant denoted by the ISO strings the library stores. -/
structure LLMModel where
  id : String
  slug : String
  canonicalSlug : Option String := none
  name : String
  description : Option String := none
  huggingFaceId : Option String := none
  provider : ModelProvider
  contextLength : Nat
  maxCompletionTokens : Nat
  sizeTier : ModelSizeTier
  pricing : ModelPricing
  capabilities : ModelCapabilities
  supportedParameters : List String := []
  defaults : ModelDefaults := {}
  requestLimits : Option RequestLimits := none
  tokenizer : Option String := none
  createdAt : Option Nat := none
  updatedAt : Nat
deriving DecidableEq

/-- Source tag of a registry. -/
inductive RegistrySource
  | api
  | snapshot
  | fallback
deriving DecidableEq

/-- Registry metadata (`RegistryMetadata`); timestamps as epoch milliseconds. -/
structure RegistryMetadata where
  version : Nat
  fetchedAt : Nat
  expiresAt : Nat
  modelCount : Nat
  providerCount : Nat
  source : RegistrySource
deriving DecidableEq

/-- The assembled registry (`ModelRegistry`).  The three JS index objects are
modelled as lookup functions (a JS object read `obj[k]` is exactly
application). -/
structure ModelRegistry where
  metadata : RegistryMetadata
  models : List LLMModel
  byId : String → Option LLMModel
  byProvider : String → List LLMModel
  byTier : ModelSizeTier → List LLMModel

-- ============================================================================
-- Provider table (KNOWN_PROVIDERS / UNKNOWN_PROVIDER in types.ts)
-- ============================================================================

/-- The static provider branding table; `some (name, color, icon)` on a hit. -/
def KNOWN_PROVIDERS (id : String) : Option (String × String × String) :=
  if id = "anthropic" then some ("Anthropic", "#D4A574", "🎭")
  else if id = "openai" then some ("OpenAI", "#10A37F", "🤖")
  else if id = "google" then some ("Google", "#4285F4", "✨")
  else if id = "meta-llama" then some ("Meta", "#0668E1", "🦙")
  else if id = "mistralai" then some ("Mistral", "#FF7000", "🌬️")
  else if id = "cohere" then some ("Cohere", "#D18EE2", "🔮")
  else if id = "deepseek" then some ("DeepSeek", "#4D6BFE", "🔍")
  else if id = "x-ai" then some ("xAI", "#000000", "🅧")
  else if id = "qwen" then some ("Qwen", "#615EFF", "🌸")
  else if id = "microsoft" then some ("Microsoft", "#00A4EF", "🪟")
  else if id = "perplexity" then some ("Perplexity", "#20808D", "🔎")
  else if id = "nous" then some ("Nous Research", "#8B5CF6", "🧠")
  else if id = "nousresearch" then some ("Nous Research", "#8B5CF6", "🧠")
  else if id = "01-ai" then some ("01.AI", "#FF6B6B", "🎯")
  else if id = "thudm" then some ("Zhipu AI", "#00D4AA", "🐲")
  else if id = "nvidia" then some ("NVIDIA", "#76B900", "🟢")
  else none

-- ============================================================================
-- Parsing helpers (src/parser.ts)
-- ============================================================================

/-- parser.ts `parseProviderId`: `modelId.split('/')[0] || 'unknown'`. -/
def parseProviderId (modelId : String) : String :=
  match splitChar '/' modelId.toList with
  | [] => "unknown"
  | p :: _ => if p = [] then "unknown" else String.mk p

/-- parser.ts `parseModelSlug`: `parts.slice(1).join('/') || modelId`. -/
def parseModelSlug (modelId : String) : String :=
  let j := joinChar '/' (splitChar '/' modelId.toList).tail
  if j = [] then modelId else String.mk j

/-- Capitalize the first character of a word
(`word.charAt(0).toUpperCase() + word.slice(1)`). -/
def capWord : List Char → List Char
  | [] => []
  | c :: r => c.toUpper :: r

/-- parser.ts `getProviderInfo`. -/
def getProviderInfo (providerId : String) : ModelProvider :=
  match KNOWN_PROVIDERS providerId with
  | some known =>
    { id := providerId, name := known.1, color := known.2.1, icon := some known.2.2 }
  | none =>
    let generatedName :=
      String.mk (joinChar ' ' ((splitChar '-' providerId.toList).map capWord))
    { id := providerId, name := generatedName, color := "#6B7280", icon := some "❓" }

/-- JS `field ? parseFloat(field) : undefined` on an optional cost string;
`none` also absorbs the `NaN` outcome, which downstream truthiness tests
treat like `0`/absent. -/
def jsCondParse (field : Option String) : Option ℚ :=
  match field with
  | some s => if s = "" then none else jsParseFloat s
  | none => none

/-- JS `v ? v * 1e6 : undefined` applied to an already-parsed cost. -/
def jsCondScale (v : Option ℚ) : Option ℚ :=
  match v with
  | some q => if q = 0 then none else some (q * 1000000)
  | none => none

/-- parser.ts `parsePricing`. -/
def parsePricing (pricing : RawPricing) : ModelPricing :=
  let promptPerToken := jsParseFloatOr0 pricing.prompt
  let completionPerToken := jsParseFloatOr0 pricing.completion
  { promptPerMillion := promptPerToken * 1000000
    completionPerMillion := completionPerToken * 1000000
    isFree := decide (promptPerToken = 0 ∧ completionPerToken = 0)
    imagePerImage := jsCondParse pricing.image
    requestCost := jsCondParse pricing.request
    webSearchCost := jsCondParse pricing.web_search
    reasoningPerMillion := jsCondScale (jsCondParse pricing.internal_reasoning)
    cacheReadPerMillion := jsCondScale (jsCondParse pricing.input_cache_read)
    cacheWritePerMillion := jsCondScale (jsCondParse pricing.input_cache_write) }

/-- parser.ts `getSizeTier`. -/
def getSizeTier (contextLength : Nat) : ModelSizeTier :=
  if contextLength < 8000 then .tiny
  else if contextLength < 32000 then .small
  else if contextLength < 128000 then .medium
  else if contextLength < 500000 then .large
  else .massive

/-- parser.ts `parseInputModalities`. -/
def parseInputModalities (model : OpenRouterModel) : List String :=
  match model.architecture.bind Architecture.input_modalities with
  | some raw => raw.filter (fun m => ["text", "image", "audio", "video", "file"].contains m)
  | none =>
    let modality := jsOrStr (model.architecture.map Architecture.modality) "text"
    let ms := ["text"]
    let ms := if strIncludes modality "image" then ms ++ ["image"] else ms
    let ms := if strIncludes modality "audio" then ms ++ ["audio"] else ms
    if strIncludes modality "video" then ms ++ ["video"] else ms

/-- parser.ts `parseOutputModalities`. -/
def parseOutputModalities (model : OpenRouterModel) : List String :=
  match model.architecture.bind Architecture.output_modalities with
  | some raw => raw.filter (fun m => ["text", "image", "audio"].contains m)
  | none => ["text"]

/-- parser.ts `hasParam`. -/
def hasParam (model : OpenRouterModel) (p : String) : Bool :=
  match model.supported_parameters with
  | some l => l.contains p
  | none => false

/-- parser.ts `parseCapabilities`. -/
def parseCapabilities (model : OpenRouterModel) : ModelCapabilities :=
  let modalityString := jsOrStr (model.architecture.map Architecture.modality) "text"
  let inputModalities := parseInputModalities model
  let outputModalities := parseOutputModalities model
  let hasImageInput := inputModalities.contains "image"
  let hasAudioInput := inputModalities.contains "audio"
  let hasVideoInput := inputModalities.contains "video"
  let isMultimodal :=
    hasAudioInput || hasVideoInput || (hasImageInput && decide (1 < outputModalities.length))
  { inputModalities := inputModalities
    outputModalities := outputModalities
    modalityString := modalityString
    supportsTools := hasParam model "tools" || hasParam model "tool_choice"
    supportsReasoning := hasParam model "reasoning" || hasParam model "include_reasoning"
    supportsStructuredOutput := hasParam model "structured_outputs"
    supportsJsonMode := hasParam model "response_format"
    supportsStreaming := true
    supportsTemperature := hasParam model "temperature"
    supportsTopP := hasParam model "top_p"
    supportsTopK := hasParam model "top_k"
    supportsFrequencyPenalty := hasParam model "frequency_penalty"
    supportsPresencePenalty := hasParam model "presence_penalty"
    supportsStopSequences := hasParam model "stop"
    supportsWebSearch :=
      match jsCondParse model.pricing.web_search with
      | some v => decide (0 < v)
      | none => false
    isModerated := (model.top_provider.bind TopProvider.is_moderated).getD false
    supportsImages := hasImageInput
    modality :=
      if isMultimodal then "multimodal"
      else if hasImageInput then "text+image"
      else "text"
    instructType := model.architecture.bind Architecture.instruct_type }

/-- parser.ts `parseDefaults`. -/
def parseDefaults (model : OpenRouterModel) : ModelDefaults :=
  match model.default_parameters with
  | none => {}
  | some d =>
    { temperature := d.temperature
      topP := d.top_p
      topK := d.top_k
      frequencyPenalty := d.frequency_penalty
      presencePenalty := d.presence_penalty }

/-- parser.ts `parseRequestLimits`. -/
def parseRequestLimits (model : OpenRouterModel) : Option RequestLimits :=
  match model.per_request_limits with
  | none => none
  | some limits =>
    some { promptTokens := limits.prompt_tokens, completionTokens := limits.completion_tokens }

-- ============================================================================
-- Main transform (src/parser.ts)
-- ============================================================================

/-- parser.ts `transformModel`; `now` is the instant
`new Date().toISOString()` denotes at call time. -/
def transformModel (raw : OpenRouterModel) (now : Nat) : LLMModel :=
  { id := raw.id
    slug := parseModelSlug raw.id
    canonicalSlug := raw.canonical_slug
    name := raw.name
    description := raw.description
    huggingFaceId :=
      match raw.hugging_face_id with
      | some s => if s = "" then none else some s
      | none => none
    provider := getProviderInfo (parseProviderId raw.id)
    contextLength := raw.context_length
    maxCompletionTokens :=
      jsOrNat raw.max_completion_tokens
        (jsOrNat (raw.top_provider.bind TopProvider.max_completion_tokens)
          (min raw.context_length 4096))
    sizeTier := getSizeTier raw.context_length
    pricing := parsePricing raw.pricing
    capabilities := parseCapabilities raw
    supportedParameters := raw.supported_parameters.getD []
    defaults := parseDefaults raw
    requestLimits := parseRequestLimits raw
    tokenizer := raw.architecture.map Architecture.tokenizer
    createdAt :=
      match raw.created with
      | some c => if c = 0 then none else some (c * 1000)
      | none => none
    updatedAt := now }

/-- The comparator `(a, b) => b.contextLength - a.contextLength` as the
order relation of a stable sort (ECMAScript sort is required to be stable). -/
def ctxDescLe (a b : LLMModel) : Bool :=
  decide (b.contextLength ≤ a.contextLength)

/-- parser.ts `transformModels`: map, then stable-sort descending by
context length. -/
def transformModels (rawModels : List OpenRouterModel) (now : Nat) : List LLMModel :=
  (rawModels.map (fun r => transformModel r now)).mergeSort ctxDescLe

/-- Cache TTL, 24 hours in milliseconds. -/
def CACHE_DURATION_MS : Nat := 24 * 60 * 60 * 1000

/-- Registry schema version (parser.ts v2 schema). -/
def REGISTRY_VERSION : Nat := 2

/-- One iteration of the `buildRegistry` index-building loop: assign the
model into `byId` and push it onto its `byProvider` and `byTier` buckets. -/
def registryStep (acc : (String → Option LLMModel) ×
    (String → List LLMModel) × (ModelSizeTier → List LLMModel)) (m : LLMModel) :
    (String → Option LLMModel) ×
      (String → List LLMModel) × (ModelSizeTier → List LLMModel) :=
  (fun k => if k = m.id then some m else acc.1 k,
   fun k => if k = m.provider.id then acc.2.1 k ++ [m] else acc.2.1 k,
   fun t => if t = m.sizeTier then acc.2.2 t ++ [m] else acc.2.2 t)

/-- parser.ts `buildRegistry`: metadata plus the three indices built in one
pass over the (already sorted) model list. -/
def buildRegistry (models : List LLMModel) (source : RegistrySource) (now : Nat) :
    ModelRegistry :=
  let providerCount := ((models.map (fun m => m.provider.id)).dedup).length
  let idx := models.foldl registryStep (fun _ => none, fun _ => [], fun _ => [])
  { metadata :=
      { version := REGISTRY_VERSION
        fetchedAt := now
        expiresAt := now + CACHE_DURATION_MS
        modelCount := models.length
        providerCount := providerCount
        source := source }
    models := models
    byId := idx.1
    byProvider := idx.2.1
    byTier := idx.2.2 }

-- ============================================================================
-- Fallback models (src/fallback.ts)
-- ============================================================================

/-- Options record of the fallback file's `createCapabilities` helper. -/
structure FallbackCapOpts where
  supportsImages : Option Bool := none
  supportsTools : Option Bool := none
  supportsReasoning : Option Bool := none
  isModerated : Option Bool := none
  modality : Option String := none

/-- fallback.ts `createCapabilities`. -/
def createCapabilities (opts : FallbackCapOpts) : ModelCapabilities :=
  let supportsImages := opts.supportsImages.getD false
  let modality := opts.modality.getD (if supportsImages then "text+image" else "text")
  { inputModalities := if supportsImages then ["text", "image"] else ["text"]
    outputModalities := ["text"]
    modalityString := if supportsImages then "text+image->text" else "text->text"
    supportsTools := opts.supportsTools.getD true
    supportsReasoning := opts.supportsReasoning.getD false
    supportsStructuredOutput := true
    supportsJsonMode := true
    supportsStreaming := true
    supportsTemperature := true
    supportsTopP := true
    supportsTopK := false
    supportsFrequencyPenalty := true
    supportsPresencePenalty := true
    supportsStopSequences := true
    supportsWebSearch := false
    isModerated := opts.isModerated.getD false
    supportsImages := supportsImages
    modality := modality }

/-- fallback.ts `createPricing`. -/
def createPricing (promptPerMillion completionPerMillion : ℚ) : ModelPricing :=
  { promptPerMillion := promptPerMillion
    completionPerMillion := completionPerMillion
    isFree := decide (promptPerMillion = 0 ∧ completionPerMillion = 0) }

/-- fallback.ts `DEFAULT_DEFAULTS`. -/
def DEFAULT_DEFAULTS : ModelDefaults :=
  { temperature := some 1, topP := some 1 }

/-- fallback.ts `FALLBACK_MODELS`: the hand-maintained terminal fallback
list; `now` is the module-load instant stamped into `updatedAt`. -/
def FALLBACK_MODELS (now : Nat) : List LLMModel :=
  [{ id := "anthropic/claude-sonnet-4", slug := "claude-sonnet-4", name := "Claude Sonnet 4"
     provider := getProviderInfo "anthropic", contextLength := 200000
     maxCompletionTokens := 64000, sizeTier := .large, pricing := createPricing 3 15
     capabilities := createCapabilities { supportsImages := some true, supportsTools := some true }
     supportedParameters := ["temperature", "top_p", "stop", "max_tokens", "tools", "tool_choice"]
     defaults := DEFAULT_DEFAULTS, updatedAt := now },
   { id := "anthropic/claude-3.5-sonnet", slug := "claude-3.5-sonnet", name := "Claude 3.5 Sonnet"
     provider := getProviderInfo "anthropic", contextLength := 200000
     maxCompletionTokens := 8192, sizeTier := .large, pricing := createPricing 3 15
     capabilities := createCapabilities { supportsImages := some true, supportsTools := some true }
     supportedParameters := ["temperature", "top_p", "stop", "max_tokens", "tools", "tool_choice"]
     defaults := DEFAULT_DEFAULTS, updatedAt := now },
   { id := "anthropic/claude-opus-4", slug := "claude-opus-4", name := "Claude Opus 4"
     provider := getProviderInfo "anthropic", contextLength := 200000
     maxCompletionTokens := 32000, sizeTier := .large, pricing := createPricing 15 75
     capabilities := createCapabilities
       { supportsImages := some true, supportsTools := some true, supportsReasoning := some true }
     supportedParameters :=
       ["temperature", "top_p", "stop", "max_tokens", "tools", "tool_choice", "reasoning"]
     defaults := DEFAULT_DEFAULTS, updatedAt := now },
   { id := "openai/gpt-4o", slug := "gpt-4o", name := "GPT-4o"
     provider := getProviderInfo "openai", contextLength := 128000
     maxCompletionTokens := 16384, sizeTier := .medium, pricing := createPricing (mkRat 5 2) 10
     capabilities := createCapabilities
       { supportsImages := some true, supportsTools := some true, isModerated := some true }
     supportedParameters :=
       ["temperature", "top_p", "stop", "max_tokens", "tools", "tool_choice", "response_format"]
     defaults := DEFAULT_DEFAULTS, updatedAt := now },
   { id := "openai/gpt-4-turbo", slug := "gpt-4-turbo", name := "GPT-4 Turbo"
     provider := getProviderInfo "openai", contextLength := 128000
     maxCompletionTokens := 4096, sizeTier := .medium, pricing := createPricing 10 30
     capabilities := createCapabilities
       { supportsImages := some true, supportsTools := some true, isModerated := some true }
     supportedParameters :=
       ["temperature", "top_p", "stop", "max_tokens", "tools", "tool_choice", "response_format"]
     defaults := DEFAULT_DEFAULTS, updatedAt := now },
   { id := "openai/o1", slug := "o1", name := "o1"
     provider := getProviderInfo "openai", contextLength := 200000
     maxCompletionTokens := 100000, sizeTier := .large, pricing := createPricing 15 60
     capabilities := createCapabilities
       { supportsImages := some true, supportsTools := some true
         supportsReasoning := some true, isModerated := some true }
     supportedParameters := ["max_tokens", "reasoning"]
     defaults := {}, updatedAt := now },
   { id := "google/gemini-2.5-pro-preview", slug := "gemini-2.5-pro-preview"
     name := "Gemini 2.5 Pro"
     provider := getProviderInfo "google", contextLength := 1000000
     maxCompletionTokens := 65536, sizeTier := .massive, pricing := createPricing (mkRat 5 4) 10
     capabilities := createCapabilities
       { supportsImages := some true, supportsTools := some true, modality := some "multimodal" }
     supportedParameters := ["temperature", "top_p", "top_k", "stop", "max_tokens", "tools"]
     defaults := DEFAULT_DEFAULTS, updatedAt := now },
   { id := "google/gemini-2.0-flash-exp", slug := "gemini-2.0-flash-exp"
     name := "Gemini 2.0 Flash"
     provider := getProviderInfo "google", contextLength := 1000000
     maxCompletionTokens := 8192, sizeTier := .massive, pricing := createPricing 0 0
     capabilities := createCapabilities
       { supportsImages := some true, supportsTools := some true, modality := some "multimodal" }
     supportedParameters := ["temperature", "top_p", "top_k", "stop", "max_tokens"]
     defaults := DEFAULT_DEFAULTS, updatedAt := now },
   { id := "deepseek/deepseek-chat", slug := "deepseek-chat", name := "DeepSeek Chat"
     provider := getProviderInfo "deepseek", contextLength := 128000
     maxCompletionTokens := 8192, sizeTier := .medium, pricing := createPricing (mkRat 7 50) (mkRat 7 25)
     capabilities := createCapabilities { supportsImages := some false, supportsTools := some true }
     supportedParameters := ["temperature", "top_p", "stop", "max_tokens", "tools"]
     defaults := DEFAULT_DEFAULTS, updatedAt := now },
   { id := "deepseek/deepseek-r1", slug := "deepseek-r1", name := "DeepSeek R1"
     provider := getProviderInfo "deepseek", contextLength := 64000
     maxCompletionTokens := 8192, sizeTier := .medium, pricing := createPricing (mkRat 11 20) (mkRat 219 100)
     capabilities := createCapabilities
       { supportsImages := some false, supportsTools := some true, supportsReasoning := some true }
     supportedParameters := ["temperature", "top_p", "stop", "max_tokens", "reasoning"]
     defaults := DEFAULT_DEFAULTS, updatedAt := now },
   { id := "meta-llama/llama-3.3-70b-instruct", slug := "llama-3.3-70b-instruct"
     name := "Llama 3.3 70B"
     provider := getProviderInfo "meta-llama", contextLength := 131072
     maxCompletionTokens := 8192, sizeTier := .medium, pricing := createPricing (mkRat 3 25) (mkRat 3 10)
     capabilities := createCapabilities { supportsImages := some false, supportsTools := some true }
     supportedParameters := ["temperature", "top_p", "stop", "max_tokens"]
     defaults := DEFAULT_DEFAULTS, updatedAt := now },
   { id := "mistralai/mistral-large-2411", slug := "mistral-large-2411", name := "Mistral Large"
     provider := getProviderInfo "mistralai", contextLength := 128000
     maxCompletionTokens := 8192, sizeTier := .medium, pricing := createPricing 2 6
     capabilities := createCapabilities { supportsImages := some false, supportsTools := some true }
     supportedParameters := ["temperature", "top_p", "stop", "max_tokens", "tools"]
     defaults := DEFAULT_DEFAULTS, updatedAt := now },
   { id := "qwen/qwen-2.5-72b-instruct", slug := "qwen-2.5-72b-instruct", name := "Qwen 2.5 72B"
     provider := getProviderInfo "qwen", contextLength := 131072
     maxCompletionTokens := 8192, sizeTier := .medium, pricing := createPricing (mkRat 7 20) (mkRat 2 5)
     capabilities := createCapabilities { supportsImages := some false, supportsTools := some true }
     supportedParameters := ["temperature", "top_p", "stop", "max_tokens"]
     defaults := DEFAULT_DEFAULTS, updatedAt := now },
   { id := "x-ai/grok-2", slug := "grok-2", name := "Grok 2"
     provider := getProviderInfo "x-ai", contextLength := 131072
     maxCompletionTokens := 8192, sizeTier := .medium, pricing := createPricing 2 10
     capabilities := createCapabilities { supportsImages := some true, supportsTools := some true }
     supportedParameters := ["temperature", "top_p", "stop", "max_tokens", "tools"]
     defaults := DEFAULT_DEFAULTS, updatedAt := now }]

-- ============================================================================
-- Fetcher (src/fetcher.ts)
-- ============================================================================

/-- fetcher.ts `getFallbackRegistry`. -/
def getFallbackRegistry (now : Nat) : ModelRegistry :=
  buildRegistry (FALLBACK_MODELS now) .fallback now

/-- fetcher.ts `fetchRegistryWithFallback`.  The two I/O stages are passed
in as explicit outcomes: `apiResult` is the outcome of the API stage
(`Except.error` = `fetchRegistry` threw: transport error, non-2xx status or
shape mismatch), and `snapshotResult` is the validated raw list of the
snapshot stage (`none` = `loadFromSnapshot` threw, returned `null`, or the
shape check failed).  The hardcoded stage cannot fail. -/
def fetchRegistryWithFallback (apiResult : Except String (List OpenRouterModel))
    (snapshotResult : Option (List OpenRouterModel)) (now : Nat) : ModelRegistry :=
  match apiResult with
  | .ok raws => buildRegistry (transformModels raws now) .api now
  | .error _ =>
    match snapshotResult with
    | some raws => buildRegistry (transformModels raws now) .snapshot now
    | none => getFallbackRegistry now

-- ============================================================================
-- Lookup and query utilities (src/utils.ts)
-- ============================================================================

/-- Strip the JS regex class `[-.\s]` from a string (`replace(/[-.\s]/g, '')`). -/
def stripFuzzy (s : String) : String :=
  String.mk (s.toList.filter (fun c => !(c = '-' || c = '.' || jsIsSpace c)))

/-- utils.ts `findModel`: five resolution passes, first match wins. -/
def findModel (query : String) (models : List LLMModel) : Option LLMModel :=
  let normalized := jsTrim (jsToLower query)
  match models.find? (fun m => jsToLower m.id == normalized) with
  | some m => some m
  | none =>
  match models.find? (fun m => jsToLower m.slug == normalized) with
  | some m => some m
  | none =>
  match models.find? (fun m => strEndsWith (jsToLower m.id) ("/" ++ normalized)) with
  | some m => some m
  | none =>
  match models.find? (fun m => strIncludes (jsToLower m.name) normalized) with
  | some m => some m
  | none =>
  let fuzzyQuery := stripFuzzy normalized
  models.find? (fun m =>
    strIncludes (stripFuzzy (jsToLower m.id)) fuzzyQuery ||
    strIncludes (stripFuzzy (jsToLower m.slug)) fuzzyQuery ||
    strIncludes (stripFuzzy (jsToLower m.name)) fuzzyQuery)

/-- A `string | string[]` union value (the `provider` query option). -/
inductive StrOrList
  | one (s : String)
  | many (l : List String)
deriving DecidableEq

/-- A `ModelSizeTier | ModelSizeTier[]` union value (the `tier` query option). -/
inductive TierOrList
  | one (t : ModelSizeTier)
  | many (l : List ModelSizeTier)
deriving DecidableEq

/-- Sort key of the query options. -/
inductive SortKey
  | context
  | price
  | name
  | provider
deriving DecidableEq

/-- Sort direction of the query options. -/
inductive SortDirection
  | asc
  | desc
deriving DecidableEq

/-- utils.ts / types.ts `ModelQueryOptions`. -/
structure ModelQueryOptions where
  provider : Option StrOrList := none
  minContext : Option Nat := none
  maxContext : Option Nat := none
  tier : Option TierOrList := none
  isFree : Option Bool := none
  supportsImages : Option Bool := none
  search : Option String := none
  sortBy : Option SortKey := none
  sortOrder : Option SortDirection := none
  limit : Option Nat := none
deriving DecidableEq

/-- The local `results` binding of `queryModels`: it either still aliases the
caller's array object, or points at a freshly allocated array with the given
content.  The faithful embedding starts from a fresh copy (`[...models]`);
tracking the alias case keeps the non-mutation theorem contentful. -/
inductive ArrRef
  | aliased
  | fresh (content : List LLMModel)

/-- State of a `queryModels` call: the content of the caller's array object
plus the current `results` binding. -/
structure QState where
  input : List LLMModel
  res : ArrRef

/-- Read the array `results` currently denotes. -/
def readRes (s : QState) : List LLMModel :=
  match s.res with
  | .aliased => s.input
  | .fresh l => l

/-- Rebind `results` to a newly allocated array (what `filter`/`slice`
assignments do). -/
def assignRes (s : QState) (l : List LLMModel) : QState :=
  { s with res := .fresh l }

/-- Write through `results` in place (what `Array.prototype.sort` does to its
receiver): if `results` still aliases the caller's array, the caller's array
changes. -/
def writeRes (s : QState) (l : List LLMModel) : QState :=
  match s.res with
  | .aliased => { input := l, res := .aliased }
  | .fresh _ => { s with res := .fresh l }

/-- Case-insensitive provider id/name match of the provider filter. -/
def providerMatch (providers : List String) (m : LLMModel) : Bool :=
  providers.any (fun p =>
    jsToLower m.provider.id == jsToLower p || jsToLower m.provider.name == jsToLower p)

/-- JS `localeCompare` as a three-way comparison (default locale modelled as
code-point order), mapped into `ℚ` like the numeric comparators. -/
def strCmp (a b : String) : ℚ :=
  match compare a b with
  | .lt => -1
  | .eq => 0
  | .gt => 1

/-- The comparator built by the `sortBy` switch, multiplied by the
`sortOrder` factor. -/
def sortComparator (key : SortKey) (order : ℚ) (a b : LLMModel) : ℚ :=
  (match key with
   | .context => (a.contextLength : ℚ) - (b.contextLength : ℚ)
   | .price => a.pricing.promptPerMillion - b.pricing.promptPerMillion
   | .name => strCmp a.name b.name
   | .provider => strCmp a.provider.name b.provider.name) * order

/-- JS `Array.prototype.sort` with a consistent comparator: a stable sort
placing `a` no later than `b` when `cmp a b ≤ 0`. -/
def jsSortBy (cmp : LLMModel → LLMModel → ℚ) (l : List LLMModel) : List LLMModel :=
  l.mergeSort (fun a b => decide (cmp a b ≤ 0))

/-- Provider filter step (`if (options.provider) ...`); an empty string is
falsy and skips the filter, any array (even empty) is truthy. -/
def stepProvider (o : ModelQueryOptions) (s : QState) : QState :=
  match o.provider with
  | some (.one p) =>
    if p = "" then s else assignRes s ((readRes s).filter (providerMatch [p]))
  | some (.many l) => assignRes s ((readRes s).filter (providerMatch l))
  | none => s

/-- Minimum-context filter step (`options.minContext !== undefined`). -/
def stepMinContext (o : ModelQueryOptions) (s : QState) : QState :=
  match o.minContext with
  | some n => assignRes s ((readRes s).filter (fun m => decide (n ≤ m.contextLength)))
  | none => s

/-- Maximum-context filter step (`options.maxContext !== undefined`). -/
def stepMaxContext (o : ModelQueryOptions) (s : QState) : QState :=
  match o.maxContext with
  | some n => assignRes s ((readRes s).filter (fun m => decide (m.contextLength ≤ n)))
  | none => s

/-- Tier filter step (`if (options.tier) ...`; tier strings are non-empty,
hence always truthy). -/
def stepTier (o : ModelQueryOptions) (s : QState) : QState :=
  match o.tier with
  | some tv =>
    let tiers := match tv with | .one t => [t] | .many l => l
    assignRes s ((readRes s).filter (fun m => tiers.contains m.sizeTier))
  | none => s

/-- Free-model filter step (`options.isFree !== undefined`). -/
def stepIsFree (o : ModelQueryOptions) (s : QState) : QState :=
  match o.isFree with
  | some b => assignRes s ((readRes s).filter (fun m => m.pricing.isFree == b))
  | none => s

/-- Image-support filter step (`options.supportsImages !== undefined`). -/
def stepImages (o : ModelQueryOptions) (s : QState) : QState :=
  match o.supportsImages with
  | some b => assignRes s ((readRes s).filter (fun m => m.capabilities.supportsImages == b))
  | none => s

/-- Free-text search step (`if (options.search) ...`; the empty string is
falsy). An absent description contributes no match. -/
def stepSearch (o : ModelQueryOptions) (s : QState) : QState :=
  match o.search with
  | some q =>
    if q = "" then s
    else
      let search := jsToLower q
      assignRes s ((readRes s).filter (fun m =>
        strIncludes (jsToLower m.id) search ||
        strIncludes (jsToLower m.name) search ||
        strIncludes (jsToLower m.provider.name) search ||
        (match m.description with
         | some d => strIncludes (jsToLower d) search
         | none => false)))
  | none => s

/-- Sorting step (`if (options.sortBy) ...`): an in-place sort of `results`. -/
def stepSortBy (o : ModelQueryOptions) (s : QState) : QState :=
  match o.sortBy with
  | some key =>
    let order : ℚ := if o.sortOrder = some .desc then -1 else 1
    writeRes s (jsSortBy (sortComparator key order) (readRes s))
  | none => s

/-- Limit step (`if (options.limit) ...`): `0` is falsy, so no truncation. -/
def stepLimit (o : ModelQueryOptions) (s : QState) : QState :=
  match o.limit with
  | some n => if n = 0 then s else assignRes s ((readRes s).take n)
  | none => s

/-- utils.ts `queryModels`, with the caller's array tracked through the call:
returns the result array content and the content of the caller's array after
the call.  `results` starts as a fresh copy of `models` (`[...models]`). -/
def queryModelsJS (models : List LLMModel) (options : ModelQueryOptions) :
    List LLMModel × List LLMModel :=
  let s := stepLimit options (stepSortBy options (stepSearch options (stepImages options
    (stepIsFree options (stepTier options (stepMaxContext options (stepMinContext options
      (stepProvider options { input := models, res := .fresh models }))))))))
  (readRes s, s.input)

/-- utils.ts `queryModels` as the pure result of the call. -/
def queryModels (models : List LLMModel) (options : ModelQueryOptions) : List LLMModel :=
  (queryModelsJS models options).1

-- ============================================================================
-- Helper lemmas
-- ============================================================================

/-- Unfolding equation of `splitChar` on a cons, once the recursive result is
known to be a cons. -/
theorem splitChar_cons_eq (sep c : Char) (r : List Char) (h : List Char)
    (t : List (List Char)) (ht : splitChar sep r = h :: t) :
    splitChar sep (c :: r) = if c = sep then [] :: h :: t else (c :: h) :: t := by
  show (match splitChar sep r with
        | [] => [[c]]
        | h :: t => if c = sep then [] :: h :: t else (c :: h) :: t) = _
  rw [ht]

/-- Unfolding equation of `joinChar` on two or more pieces. -/
theorem joinChar_cons_cons (sep : Char) (x y : List Char) (t : List (List Char)) :
    joinChar sep (x :: y :: t) = x ++ sep :: joinChar sep (y :: t) := rfl

/-- A head character of the first piece passes out of `joinChar`. -/
theorem joinChar_cons_head (sep c : Char) (h : List Char) (t : List (List Char)) :
    joinChar sep ((c :: h) :: t) = c :: joinChar sep (h :: t) := by
  cases t with
  | nil => rfl
  | cons y t2 => rfl

/-- The first piece of `splitChar` is the run of characters before the first
separator. -/
theorem splitChar_head (sep : Char) (l : List Char) :
    ∃ t, splitChar sep l = l.takeWhile (fun c => c != sep) :: t := by
  induction l with
  | nil => exact ⟨[], rfl⟩
  | cons c r ih =>
    obtain ⟨t, ht⟩ := ih
    rw [splitChar_cons_eq sep c r _ t ht]
    by_cases hc : c = sep
    · rw [if_pos hc]
      have hb : (c != sep) = false := by simp [hc]
      exact ⟨List.takeWhile (fun x => x != sep) r :: t, by simp [List.takeWhile_cons, hb]⟩
    · rw [if_neg hc]
      have hb : (c != sep) = true := by simp [hc]
      exact ⟨t, by simp [List.takeWhile_cons, hb]⟩

/-- Joining undoes splitting. -/
theorem splitChar_join (sep : Char) (l : List Char) :
    joinChar sep (splitChar sep l) = l := by
  induction l with
  | nil => rfl
  | cons c r ih =>
    obtain ⟨t, ht⟩ := splitChar_head sep r
    rw [splitChar_cons_eq sep c r _ t ht]
    by_cases hc : c = sep
    · rw [if_pos hc, joinChar_cons_cons, ← ht, ih]
      simp [hc]
    · rw [if_neg hc, joinChar_cons_head, ← ht, ih]

/-- The joined tail pieces of `splitChar` are the characters after the first
separator. -/
theorem splitChar_tail_join (sep : Char) (l : List Char) :
    joinChar sep (splitChar sep l).tail = (l.dropWhile (fun c => c != sep)).drop 1 := by
  induction l with
  | nil => rfl
  | cons c r ih =>
    obtain ⟨t, ht⟩ := splitChar_head sep r
    rw [splitChar_cons_eq sep c r _ t ht]
    by_cases hc : c = sep
    · rw [if_pos hc]
      simp only [List.tail_cons]
      rw [← ht, splitChar_join]
      have hb : (c != sep) = false := by simp [hc]
      rw [List.dropWhile_cons, hb]
      simp
    · rw [if_neg hc]
      simp only [List.tail_cons]
      have hjt : joinChar sep t = joinChar sep (splitChar sep r).tail := by rw [ht, List.tail_cons]
      rw [hjt, ih]
      have hb : (c != sep) = true := by simp [hc]
      rw [List.dropWhile_cons, hb]
      simp

-- ============================================================================
-- C1
-- ============================================================================

/-- C1 counterexample: a raw record with `context_length` exactly 128000 is
normalized to size tier `large`, not `medium` as the claim states. -/
theorem c1_counterexample :
    (transformModel
      { id := "test/model", name := "Test", context_length := 128000
        pricing := { prompt := "0", completion := "0" } } 0).sizeTier ≠
      ModelSizeTier.medium := by
  decide

/-- C1 (amended): a raw record with `context_length` exactly 128000 is
normalized to size tier `large` (128000 is the inclusive lower bound of
`large`), and `context_length` exactly 500000 to `massive`. -/
theorem c1_sizeTierBoundaries (raw : OpenRouterModel) (now : Nat) :
    (raw.context_length = 128000 →
      (transformModel raw now).sizeTier = ModelSizeTier.large) ∧
    (raw.context_length = 500000 →
      (transformModel raw now).sizeTier = ModelSizeTier.massive) := by
  constructor <;> intro h <;>
    show getSizeTier raw.context_length = _ <;> rw [h] <;> decide

/-- C1 witness: the amended boundary facts at two concrete raw records. -/
theorem c1_sizeTierBoundaries_witness :
    (transformModel
      { id := "a/b", name := "A", context_length := 128000
        pricing := { prompt := "0", completion := "0" } } 0).sizeTier =
      ModelSizeTier.large ∧
    (transformModel
      { id := "a/c", name := "B", context_length := 500000
        pricing := { prompt := "0", completion := "0" } } 0).sizeTier =
      ModelSizeTier.massive :=
  ⟨(c1_sizeTierBoundaries _ 0).1 rfl, (c1_sizeTierBoundaries _ 0).2 rfl⟩

-- ============================================================================
-- C3
-- ============================================================================

/-- C3 counterexample: for the slash-free identifier `"gpt4"` the provider id
is the identifier itself, not `"unknown"` as the claim states. -/
theorem c3_counterexample :
    parseProviderId "gpt4" = "gpt4" ∧ parseProviderId "gpt4" ≠ "unknown" := by
  constructor <;> decide

/-- C3 (amended): the provider id is the run of characters before the first
`/` (the whole identifier when no `/` occurs), except that an empty run gives
`"unknown"`; the slug is the remainder after the first `/`, except that an
empty remainder (including the no-`/` case) gives the whole identifier. -/
theorem c3_identifierSplit (id : String) :
    parseProviderId id =
      (if id.toList.takeWhile (fun c => c != '/') = [] then "unknown"
       else String.mk (id.toList.takeWhile (fun c => c != '/'))) ∧
    parseModelSlug id =
      (if (id.toList.dropWhile (fun c => c != '/')).drop 1 = [] then id
       else String.mk ((id.toList.dropWhile (fun c => c != '/')).drop 1)) := by
  obtain ⟨t, ht⟩ := splitChar_head '/' id.toList
  constructor
  · rw [parseProviderId, ht]
  · rw [parseModelSlug, splitChar_tail_join]

-- ============================================================================
-- C5
-- ============================================================================

/-- C5 counterexample: a raw record whose explicit `max_completion_tokens`
is present with value 0 is normalized to `min(context_length, 4096) = 4096`,
not to the explicit value 0 as the claim states. -/
theorem c5_counterexample :
    (transformModel
      { id := "p/m", name := "M", context_length := 100000
        max_completion_tokens := some 0
        pricing := { prompt := "0", completion := "0" } } 0).maxCompletionTokens ≠ 0 := by
  decide

/-- C5 (amended): `maxCompletionTokens` is the explicit raw value when present
and nonzero; otherwise the `top_provider` override when present and nonzero;
otherwise `min(context_length, 4096)` (JS `||` treats a present 0 as absent). -/
theorem c5_maxCompletionTokens (raw : OpenRouterModel) (now : Nat) :
    (∀ v, raw.max_completion_tokens = some v → v ≠ 0 →
      (transformModel raw now).maxCompletionTokens = v) ∧
    ((raw.max_completion_tokens = none ∨ raw.max_completion_tokens = some 0) →
      ∀ w, raw.top_provider.bind TopProvider.max_completion_tokens = some w → w ≠ 0 →
        (transformModel raw now).maxCompletionTokens = w) ∧
    ((raw.max_completion_tokens = none ∨ raw.max_completion_tokens = some 0) →
      (raw.top_provider.bind TopProvider.max_completion_tokens = none ∨
        raw.top_provider.bind TopProvider.max_completion_tokens = some 0) →
      (transformModel raw now).maxCompletionTokens = min raw.context_length 4096) := by
  refine ⟨?_, ?_, ?_⟩
  · intro v hv hvnz
    show jsOrNat raw.max_completion_tokens _ = v
    rw [hv]
    simp [jsOrNat, hvnz]
  · intro h1 w hw hwnz
    show jsOrNat raw.max_completion_tokens
      (jsOrNat (raw.top_provider.bind TopProvider.max_completion_tokens) _) = w
    rw [hw]
    rcases h1 with h1 | h1 <;> rw [h1] <;> simp [jsOrNat, hwnz]
  · intro h1 h2
    show jsOrNat raw.max_completion_tokens
      (jsOrNat (raw.top_provider.bind TopProvider.max_completion_tokens) _) =
        min raw.context_length 4096
    rcases h1 with h1 | h1 <;> rcases h2 with h2 | h2 <;> rw [h1, h2] <;> simp [jsOrNat]

/-- C5 witness: the three amended branches at concrete raw records. -/
theorem c5_maxCompletionTokens_witness :
    (transformModel
      { id := "p/a", name := "A", context_length := 100000
        max_completion_tokens := some 9000
        pricing := { prompt := "0", completion := "0" } } 0).maxCompletionTokens = 9000 ∧
    (transformModel
      { id := "p/b", name := "B", context_length := 100000
        top_provider := some { max_completion_tokens := some 7000 }
        pricing := { prompt := "0", completion := "0" } } 0).maxCompletionTokens = 7000 ∧
    (transformModel
      { id := "p/c", name := "C", context_length := 100000
        pricing := { prompt := "0", completion := "0" } } 0).maxCompletionTokens =
      min 100000 4096 :=
  ⟨(c5_maxCompletionTokens _ 0).1 9000 rfl (by decide),
   (c5_maxCompletionTokens _ 0).2.1 (Or.inl rfl) 7000 rfl (by decide),
   (c5_maxCompletionTokens _ 0).2.2 (Or.inl rfl) (Or.inl rfl)⟩

-- ============================================================================
-- C2
-- ============================================================================

/-- C2: the fallback chain is total by construction (it returns a
`ModelRegistry` for every stage outcome); when the API stage throws, the
result is tagged `snapshot` if the snapshot stage succeeds and never `api`;
when both fail, the result is tagged `fallback` and its model list (the
hardcoded 14-model table) is non-empty. -/
theorem c2_fallbackChain (e : String) (raws : List OpenRouterModel) (now : Nat) :
    (fetchRegistryWithFallback (Except.error e) (some raws) now).metadata.source =
      RegistrySource.snapshot ∧
    (fetchRegistryWithFallback (Except.error e) none now).metadata.source =
      RegistrySource.fallback ∧
    (fetchRegistryWithFallback (Except.error e) none now).models ≠ [] ∧
    (∀ snap, (fetchRegistryWithFallback (Except.error e) snap now).metadata.source ≠
      RegistrySource.api) := by
  refine ⟨rfl, rfl, ?_, ?_⟩
  · show FALLBACK_MODELS now ≠ []
    simp [FALLBACK_MODELS]
  · intro snap
    cases snap with
    | none => exact fun h => nomatch h
    | some raws2 => exact fun h => nomatch h

/-- C2 witness: the fallback chain at concrete stage outcomes. -/
theorem c2_fallbackChain_witness :
    (fetchRegistryWithFallback (Except.error "boom") none 0).metadata.source =
      RegistrySource.fallback ∧
    (fetchRegistryWithFallback (Except.error "boom") (some []) 0).metadata.source =
      RegistrySource.snapshot :=
  ⟨(c2_fallbackChain "boom" [] 0).2.1, (c2_fallbackChain "boom" [] 0).1⟩

-- ============================================================================
-- C4
-- ============================================================================

/-- C4: normalized pricing has `isFree = true` exactly when both core cost
strings parse (tolerantly, failure ↦ 0) to exactly 0, and the per-million
fields are the parsed per-token values scaled by 1,000,000; in particular
`"0"/"0"` is free and a nonzero prompt cost is not. -/
theorem c4_pricingNormalization (raw : OpenRouterModel) (now : Nat) :
    ((transformModel raw now).pricing.isFree = true ↔
      (jsParseFloatOr0 raw.pricing.prompt = 0 ∧
        jsParseFloatOr0 raw.pricing.completion = 0)) ∧
    (transformModel raw now).pricing.promptPerMillion =
      jsParseFloatOr0 raw.pricing.prompt * 1000000 ∧
    (transformModel raw now).pricing.completionPerMillion =
      jsParseFloatOr0 raw.pricing.completion * 1000000 ∧
    (parsePricing { prompt := "0", completion := "0" }).isFree = true ∧
    (parsePricing { prompt := "0.000003", completion := "0" }).isFree = false := by
  exact ⟨⟨fun h => of_decide_eq_true h, fun h => decide_eq_true h⟩,
    rfl, rfl, by decide, by decide⟩

-- ============================================================================
-- C6
-- ============================================================================

/-- The identifier-index update of one `buildRegistry` loop iteration. -/
def stepId (f : String → Option LLMModel) (m : LLMModel) : String → Option LLMModel :=
  fun k => if k = m.id then some m else f k

/-- The `byId` component of the index fold is the fold of `stepId`. -/
theorem registryFold_fst (models : List LLMModel) :
    ∀ (f : String → Option LLMModel) (g : String → List LLMModel)
      (h : ModelSizeTier → List LLMModel),
      (models.foldl registryStep (f, g, h)).1 = models.foldl stepId f := by
  induction models with
  | nil => intro f g h; rfl
  | cons m rest ih => intro f g h; exact ih _ _ _

/-- Looking up a member's id in the `stepId` fold returns that member, as
long as ids are pairwise distinct (later assignments never collide). -/
theorem stepId_fold_lookup (l : List LLMModel) :
    ∀ (f : String → Option LLMModel), (l.map LLMModel.id).Nodup →
      ∀ m ∈ l, (l.foldl stepId f) m.id = some m := by
  induction l using List.reverseRecOn with
  | nil => intro f _ m hm; cases hm
  | append_singleton l a ih =>
    intro f hnd m hm
    rw [List.foldl_append]
    have hnd2 := hnd
    rw [List.map_append, List.nodup_append] at hnd2
    rcases List.mem_append.1 hm with hml | hma
    · have hne : m.id ≠ a.id := by
        intro he
        exact hnd2.2.2 (List.mem_map_of_mem LLMModel.id hml) (by simp [he])
      show (if m.id = a.id then some a else (l.foldl stepId f) m.id) = some m
      rw [if_neg hne]
      exact ih f hnd2.1 m hml
    · have ha : m = a := by simpa using hma
      subst ha
      show (if m.id = m.id then some m else (l.foldl stepId f) m.id) = some m
      rw [if_pos rfl]

/-- C6 (amended): when the raw records have pairwise-distinct identifiers,
the `byId` index of `buildRegistry (transformModels raws)` maps every
model's identifier back to that identical model. -/
theorem c6_byIdRoundTrip (raws : List OpenRouterModel) (src : RegistrySource) (now : Nat)
    (h : (raws.map OpenRouterModel.id).Nodup) :
    ∀ m ∈ (buildRegistry (transformModels raws now) src now).models,
      (buildRegistry (transformModels raws now) src now).byId m.id = some m := by
  intro m hm
  show ((transformModels raws now).foldl registryStep
    (fun _ => none, fun _ => [], fun _ => [])).1 m.id = some m
  rw [registryFold_fst]
  apply stepId_fold_lookup
  · have hperm : List.Perm (transformModels raws now)
        (raws.map (fun r => transformModel r now)) :=
      List.mergeSort_perm _ _
    have hmap : List.Perm ((transformModels raws now).map LLMModel.id)
        ((raws.map (fun r => transformModel r now)).map LLMModel.id) := hperm.map _
    have hids : (raws.map (fun r => transformModel r now)).map LLMModel.id =
        raws.map OpenRouterModel.id := by
      rw [List.map_map]
      rfl
    rw [hids] at hmap
    exact hmap.nodup_iff.mpr h
  · exact hm

/-- First record of the duplicate-identifier counterexample input. -/
def dupRawFirst : OpenRouterModel :=
  { id := "a", name := "first", context_length := 2
    pricing := { prompt := "0", completion := "0" } }

/-- Second record of the duplicate-identifier counterexample input. -/
def dupRawSecond : OpenRouterModel :=
  { id := "a", name := "second", context_length := 2
    pricing := { prompt := "0", completion := "0" } }

/-- C6 counterexample: with two raw records sharing the identifier `"a"`,
the last-written model occupies the index slot, so the first model's
identifier maps to a different model and the round-trip fails. -/
theorem c6_counterexample :
    ¬ (∀ m ∈ (buildRegistry (transformModels [dupRawFirst, dupRawSecond] 0)
          RegistrySource.api 0).models,
        (buildRegistry (transformModels [dupRawFirst, dupRawSecond] 0)
          RegistrySource.api 0).byId m.id = some m) := by
  intro hclaim
  have hms : transformModels [dupRawFirst, dupRawSecond] 0 =
      [transformModel dupRawFirst 0, transformModel dupRawSecond 0] :=
    List.mergeSort_of_sorted (by simp [List.pairwise_cons]; decide)
  have hmem : transformModel dupRawFirst 0 ∈
      (buildRegistry (transformModels [dupRawFirst, dupRawSecond] 0)
        RegistrySource.api 0).models := by
    show _ ∈ transformModels [dupRawFirst, dupRawSecond] 0
    rw [hms]
    exact List.mem_cons_self _ _
  have hlook := hclaim _ hmem
  have hval : (buildRegistry (transformModels [dupRawFirst, dupRawSecond] 0)
      RegistrySource.api 0).byId (transformModel dupRawFirst 0).id =
      some (transformModel dupRawSecond 0) := by
    show ((transformModels [dupRawFirst, dupRawSecond] 0).foldl registryStep
      (fun _ => none, fun _ => [], fun _ => [])).1 (transformModel dupRawFirst 0).id = _
    rw [hms]
    rfl
  rw [hval] at hlook
  exact (by decide :
      ¬ (transformModel dupRawSecond 0).name = (transformModel dupRawFirst 0).name)
    (congrArg LLMModel.name (Option.some.inj hlook))

/-- C6 witness: two distinct-id raw records round-trip through `byId`. -/
theorem c6_byIdRoundTrip_witness :
    (buildRegistry (transformModels
      [{ id := "w/a", name := "WA", context_length := 10,
         pricing := { prompt := "0", completion := "0" } : OpenRouterModel },
       { id := "w/b", name := "WB", context_length := 10,
         pricing := { prompt := "0", completion := "0" } : OpenRouterModel }] 0)
      RegistrySource.api 0).byId "w/a" =
      some (transformModel
        { id := "w/a", name := "WA", context_length := 10,
          pricing := { prompt := "0", completion := "0" } } 0) :=
  c6_byIdRoundTrip
    [{ id := "w/a", name := "WA", context_length := 10,
       pricing := { prompt := "0", completion := "0" } },
     { id := "w/b", name := "WB", context_length := 10,
       pricing := { prompt := "0", completion := "0" } }]
    RegistrySource.api 0 (by decide) _
    (List.mem_mergeSort.mpr (List.mem_cons_self _ _))

-- ============================================================================
-- C8
-- ============================================================================

/-- The descending-context comparator is transitive. -/
theorem ctxDescLe_trans (a b c : LLMModel) :
    ctxDescLe a b → ctxDescLe b c → ctxDescLe a c := by
  simp only [ctxDescLe, decide_eq_true_eq]
  omega

/-- The descending-context comparator is total. -/
theorem ctxDescLe_total (a b : LLMModel) : ctxDescLe a b || ctxDescLe b a := by
  simp only [ctxDescLe]
  by_cases h : b.contextLength ≤ a.contextLength
  · simp [h]
  · simp [h]
    omega

/-- C8: `transformModels` output is sorted descending by `contextLength`,
and the sort is stable: for every context value `c`, the models with that
context appear in the same order as in the (un-sorted) mapped input. -/
theorem c8_sortedStable (raws : List OpenRouterModel) (now : Nat) :
    (transformModels raws now).Pairwise
      (fun a b => b.contextLength ≤ a.contextLength) ∧
    ∀ c : Nat,
      (transformModels raws now).filter (fun m => m.contextLength == c) =
        (raws.map (fun r => transformModel r now)).filter
          (fun m => m.contextLength == c) := by
  constructor
  · have hs := List.sorted_mergeSort ctxDescLe_trans ctxDescLe_total
      (raws.map (fun r => transformModel r now))
    exact hs.imp (fun h => by simpa [ctxDescLe] using h)
  · intro c
    set l := raws.map (fun r => transformModel r now) with hl
    set p : LLMModel → Bool := fun m => m.contextLength == c with hp
    have hpair : (l.filter p).Pairwise (fun a b => ctxDescLe a b = true) := by
      apply List.pairwise_of_forall_mem_list
      intro a ha b hb
      have ha2 := (List.mem_filter.1 ha).2
      have hb2 := (List.mem_filter.1 hb).2
      simp only [hp, beq_iff_eq] at ha2 hb2
      simp [ctxDescLe, ha2, hb2]
    have hsub : List.Sublist (l.filter p) (transformModels raws now) :=
      List.sublist_mergeSort ctxDescLe_trans ctxDescLe_total hpair (List.filter_sublist l)
    have hsub2 : List.Sublist ((l.filter p).filter p)
        ((transformModels raws now).filter p) :=
      hsub.filter p
    have heq : (l.filter p).filter p = l.filter p :=
      List.filter_eq_self.mpr (fun a ha => (List.mem_filter.1 ha).2)
    rw [heq] at hsub2
    have hperm : List.Perm ((transformModels raws now).filter p) (l.filter p) :=
      (List.mergeSort_perm l ctxDescLe).filter p
    exact (hsub2.eq_of_length hperm.length_eq.symm).symm

-- ============================================================================
-- C7
-- ============================================================================

/-- The local `results` binding points at a fresh array (not the caller's). -/
def IsFreshRes (s : QState) : Prop :=
  ∃ l, s.res = ArrRef.fresh l

/-- Rebinding `results` to a new array touches neither the caller's array nor
freshness. -/
theorem assignRes_spec (s : QState) (l : List LLMModel) :
    (assignRes s l).input = s.input ∧ IsFreshRes (assignRes s l) :=
  ⟨rfl, ⟨l, rfl⟩⟩

/-- Writing in place through a fresh `results` leaves the caller's array
unchanged. -/
theorem writeRes_spec (s : QState) (l : List LLMModel) (h : IsFreshRes s) :
    (writeRes s l).input = s.input ∧ IsFreshRes (writeRes s l) := by
  obtain ⟨l0, hl⟩ := h
  constructor
  · show (match s.res with
      | ArrRef.aliased => { input := l, res := ArrRef.aliased : QState }
      | ArrRef.fresh _ => { s with res := ArrRef.fresh l }).input = s.input
    rw [hl]
  · refine ⟨l, ?_⟩
    show (match s.res with
      | ArrRef.aliased => { input := l, res := ArrRef.aliased : QState }
      | ArrRef.fresh _ => { s with res := ArrRef.fresh l }).res = ArrRef.fresh l
    rw [hl]

/-- The provider filter step preserves the caller's array and freshness. -/
theorem stepProvider_spec (o : ModelQueryOptions) (s : QState) (h : IsFreshRes s) :
    (stepProvider o s).input = s.input ∧ IsFreshRes (stepProvider o s) := by
  unfold stepProvider
  cases o.provider with
  | none => exact ⟨rfl, h⟩
  | some pv =>
    cases pv with
    | one p =>
      by_cases hp : p = ""
      · simp only [hp, if_pos rfl]
        exact ⟨rfl, h⟩
      · simp only [if_neg hp]
        exact assignRes_spec _ _
    | many l => exact assignRes_spec _ _

/-- The minimum-context filter step preserves the caller's array and
freshness. -/
theorem stepMinContext_spec (o : ModelQueryOptions) (s : QState) (h : IsFreshRes s) :
    (stepMinContext o s).input = s.input ∧ IsFreshRes (stepMinContext o s) := by
  unfold stepMinContext
  cases o.minContext with
  | none => exact ⟨rfl, h⟩
  | some n => exact assignRes_spec _ _

/-- The maximum-context filter step preserves the caller's array and
freshness. -/
theorem stepMaxContext_spec (o : ModelQueryOptions) (s : QState) (h : IsFreshRes s) :
    (stepMaxContext o s).input = s.input ∧ IsFreshRes (stepMaxContext o s) := by
  unfold stepMaxContext
  cases o.maxContext with
  | none => exact ⟨rfl, h⟩
  | some n => exact assignRes_spec _ _

/-- The tier filter step preserves the caller's array and freshness. -/
theorem stepTier_spec (o : ModelQueryOptions) (s : QState) (h : IsFreshRes s) :
    (stepTier o s).input = s.input ∧ IsFreshRes (stepTier o s) := by
  unfold stepTier
  cases o.tier with
  | none => exact ⟨rfl, h⟩
  | some tv => exact assignRes_spec _ _

/-- The free-model filter step preserves the caller's array and freshness. -/
theorem stepIsFree_spec (o : ModelQueryOptions) (s : QState) (h : IsFreshRes s) :
    (stepIsFree o s).input = s.input ∧ IsFreshRes (stepIsFree o s) := by
  unfold stepIsFree
  cases o.isFree with
  | none => exact ⟨rfl, h⟩
  | some b => exact assignRes_spec _ _

/-- The image-support filter step preserves the caller's array and
freshness. -/
theorem stepImages_spec (o : ModelQueryOptions) (s : QState) (h : IsFreshRes s) :
    (stepImages o s).input = s.input ∧ IsFreshRes (stepImages o s) := by
  unfold stepImages
  cases o.supportsImages with
  | none => exact ⟨rfl, h⟩
  | some b => exact assignRes_spec _ _

/-- The search filter step preserves the caller's array and freshness. -/
theorem stepSearch_spec (o : ModelQueryOptions) (s : QState) (h : IsFreshRes s) :
    (stepSearch o s).input = s.input ∧ IsFreshRes (stepSearch o s) := by
  unfold stepSearch
  cases o.search with
  | none => exact ⟨rfl, h⟩
  | some q =>
    by_cases hq : q = ""
    · simp only [hq, if_pos rfl]
      exact ⟨rfl, h⟩
    · simp only [if_neg hq]
      exact assignRes_spec _ _

/-- The sorting step preserves the caller's array and freshness: it writes in
place, but through a `results` binding that no longer aliases the input. -/
theorem stepSortBy_spec (o : ModelQueryOptions) (s : QState) (h : IsFreshRes s) :
    (stepSortBy o s).input = s.input ∧ IsFreshRes (stepSortBy o s) := by
  unfold stepSortBy
  cases o.sortBy with
  | none => exact ⟨rfl, h⟩
  | some key => exact writeRes_spec _ _ h

/-- The limit step preserves the caller's array and freshness. -/
theorem stepLimit_spec (o : ModelQueryOptions) (s : QState) (h : IsFreshRes s) :
    (stepLimit o s).input = s.input ∧ IsFreshRes (stepLimit o s) := by
  unfold stepLimit
  cases o.limit with
  | none => exact ⟨rfl, h⟩
  | some n =>
    by_cases hn : n = 0
    · simp only [hn, if_pos rfl]
      exact ⟨rfl, h⟩
    · simp only [if_neg hn]
      exact assignRes_spec _ _

/-- After the whole pipeline, the caller's array still holds its original
content. -/
theorem queryModelsJS_input (models : List LLMModel) (o : ModelQueryOptions) :
    (queryModelsJS models o).2 = models := by
  have h0 : IsFreshRes { input := models, res := ArrRef.fresh models } :=
    ⟨models, rfl⟩
  obtain ⟨i1, f1⟩ := stepProvider_spec o _ h0
  obtain ⟨i2, f2⟩ := stepMinContext_spec o _ f1
  obtain ⟨i3, f3⟩ := stepMaxContext_spec o _ f2
  obtain ⟨i4, f4⟩ := stepTier_spec o _ f3
  obtain ⟨i5, f5⟩ := stepIsFree_spec o _ f4
  obtain ⟨i6, f6⟩ := stepImages_spec o _ f5
  obtain ⟨i7, f7⟩ := stepSearch_spec o _ f6
  obtain ⟨i8, f8⟩ := stepSortBy_spec o _ f7
  obtain ⟨i9, f9⟩ := stepLimit_spec o _ f8
  show (stepLimit o (stepSortBy o (stepSearch o (stepImages o (stepIsFree o
    (stepTier o (stepMaxContext o (stepMinContext o (stepProvider o
      { input := models, res := ArrRef.fresh models }))))))))).input = models
  rw [i9, i8, i7, i6, i5, i4, i3, i2, i1]

/-- C7: `queryModels` does not mutate its input (the call leaves the
caller's array unchanged), and a second call on the post-call input yields
the identical result. -/
theorem c7_queryPure (models : List LLMModel) (o : ModelQueryOptions) :
    (queryModelsJS models o).2 = models ∧
    (queryModelsJS ((queryModelsJS models o).2) o).1 = (queryModelsJS models o).1 := by
  refine ⟨queryModelsJS_input models o, ?_⟩
  rw [queryModelsJS_input models o]

-- ============================================================================
-- C10
-- ============================================================================

/-- C10: a `limit` of 0 is falsy in the JS truthiness test guarding the
truncation, so it applies no truncation at all — the result is exactly the
no-limit result; truncation to the first `n` results happens only for a
strictly positive `n`. -/
theorem c10_limitZero (models : List LLMModel) (o : ModelQueryOptions) (n : Nat)
    (h : 0 < n) :
    queryModels models { o with limit := some 0 } =
      queryModels models { o with limit := none } ∧
    queryModels models { o with limit := some n } =
      (queryModels models { o with limit := none }).take n := by
  obtain ⟨m, rfl⟩ : ∃ m, n = m + 1 := ⟨n - 1, by omega⟩
  exact ⟨rfl, rfl⟩

/-- C10 witness: the limit-0 and positive-limit behaviour at a concrete
option set. -/
theorem c10_limitZero_witness :
    queryModels [] { limit := some 0 } = queryModels [] { limit := none } ∧
    queryModels [] { limit := some 1 } = (queryModels [] { limit := none }).take 1 :=
  c10_limitZero [] {} 1 (by decide)

-- ============================================================================
-- C9
-- ============================================================================

/-- C9: `findModel` resolves its (lowercased, trimmed) query through five
passes, first match wins — exact id, exact slug, id ending in `/`+query,
name containing the query, then the punctuation-stripped fuzzy pass — and on
the fallback model table the query `"gpt4o"` falls through the first four
passes and resolves to the model with identifier `"openai/gpt-4o"` by the
fuzzy pass. -/
theorem c9_findModelOrder (q : String) (models : List LLMModel) :
    (findModel q models =
      (models.find? (fun m => jsToLower m.id == jsTrim (jsToLower q))).orElse (fun _ =>
        (models.find? (fun m => jsToLower m.slug == jsTrim (jsToLower q))).orElse (fun _ =>
          (models.find? (fun m =>
            strEndsWith (jsToLower m.id) ("/" ++ jsTrim (jsToLower q)))).orElse (fun _ =>
            (models.find? (fun m =>
              strIncludes (jsToLower m.name) (jsTrim (jsToLower q)))).orElse (fun _ =>
              models.find? (fun m =>
                strIncludes (stripFuzzy (jsToLower m.id))
                  (stripFuzzy (jsTrim (jsToLower q))) ||
                strIncludes (stripFuzzy (jsToLower m.slug))
                  (stripFuzzy (jsTrim (jsToLower q))) ||
                strIncludes (stripFuzzy (jsToLower m.name))
                  (stripFuzzy (jsTrim (jsToLower q))))))))) ∧
    ((FALLBACK_MODELS 0).find? (fun m =>
      jsToLower m.id == jsTrim (jsToLower "gpt4o")) = none ∧
     (FALLBACK_MODELS 0).find? (fun m =>
      jsToLower m.slug == jsTrim (jsToLower "gpt4o")) = none ∧
     (FALLBACK_MODELS 0).find? (fun m =>
      strEndsWith (jsToLower m.id) ("/" ++ jsTrim (jsToLower "gpt4o"))) = none ∧
     (FALLBACK_MODELS 0).find? (fun m =>
      strIncludes (jsToLower m.name) (jsTrim (jsToLower "gpt4o"))) = none ∧
     findModel "gpt4o" (FALLBACK_MODELS 0) = (FALLBACK_MODELS 0).get? 3 ∧
     ((FALLBACK_MODELS 0).get? 3).map LLMModel.id = some "openai/gpt-4o") := by
  constructor
  · unfold findModel
    cases h1 : models.find? (fun m => jsToLower m.id == jsTrim (jsToLower q)) with
    | some m => simp [h1, Option.orElse]
    | none =>
      simp only [h1]
      cases h2 : models.find? (fun m => jsToLower m.slug == jsTrim (jsToLower q)) with
      | some m => simp [h2, Option.orElse]
      | none =>
        simp only [h2]
        cases h3 : models.find? (fun m =>
            strEndsWith (jsToLower m.id) ("/" ++ jsTrim (jsToLower q))) with
        | some m => simp [h3, Option.orElse]
        | none =>
          simp only [h3]
          cases h4 : models.find? (fun m =>
              strIncludes (jsToLower m.name) (jsTrim (jsToLower q))) with
          | some m => simp [h4, Option.orElse]
          | none => simp [h4, Option.orElse]
  · refine ⟨by decide, by decide, by decide, by decide, by decide, by decide⟩
